import Mathlib

/-!
Shallow embedding of the voice-chat controller of the freja-ai-voice
repository.  The embedded code comes from `src/src/hooks/useVoiceChat.ts`
(the MediaSource streaming variant) and from the variant hook stored in
`src/unnamed/part_000`, which carries the outbound throttle, the
connection-state guard and the reconnect-on-abnormal-close logic that the
spec describes.  Stateful hook refs become fields of explicit state
records; each handler becomes a pure state-transition function.
-/

/-- Decoded bytes of one synthesized audio chunk: the `Uint8Array` built
from the base64 payload of an `audio_output` frame (the elementwise
`charCodeAt` copy of the `atob` output). -/
abbrev Chunk := List Nat

/-- Playback-side state of the hook in `src/src/hooks/useVoiceChat.ts`:
the refs `currentAudioRef`, `mediaSourceRef`, `sourceBufferRef`,
`audioChunksBuffer`, `audioQueueRef`, the flags `isStreamingAudioRef`,
`isPlayingRef`, the `conversationState.isPlaying` flag, and the
`speakerEnabled` setting.  `appended` records, in order, every chunk the
source buffer (the playback device) has received via `appendBuffer`. -/
structure AudioState where
  speakerEnabled : Bool
  hasCurrentAudio : Bool
  hasMediaSource : Bool
  mediaSourceOpen : Bool
  hasSourceBuffer : Bool
  sourceBufferUpdating : Bool
  appended : List Chunk
  audioChunksBuffer : List Chunk
  audioQueue : List Chunk
  isStreamingAudio : Bool
  isPlayingRef : Bool
  isPlaying : Bool
deriving DecidableEq

/-- Embeds `handleStreamingAudioOutput` (useVoiceChat.ts lines 252-277):
guard on speaker setting and streaming flag, then either append the
decoded bytes directly to the source buffer when it exists and is not
updating, or push them onto `audioChunksBuffer`.  A direct `appendBuffer`
starts an asynchronous update, so `sourceBufferUpdating` becomes true. -/
def handleStreamingAudioOutput (st : AudioState) (c : Chunk) : AudioState :=
  if !st.speakerEnabled || !st.isStreamingAudio then st
  else if st.hasSourceBuffer && !st.sourceBufferUpdating then
    { st with appended := st.appended ++ [c], sourceBufferUpdating := true }
  else
    { st with audioChunksBuffer := st.audioChunksBuffer ++ [c] }

/-- Embeds the `updateend` listener registered in `initializeStreamingAudio`
(useVoiceChat.ts lines 225-233).  When an append completes the buffer is no
longer updating; if queued chunks exist, one is shifted and, with the
source buffer present and idle, appended (starting a new update). -/
def onUpdateEnd (st : AudioState) : AudioState :=
  match st.audioChunksBuffer with
  | [] => { st with sourceBufferUpdating := false }
  | c :: rest =>
    if st.hasSourceBuffer then
      { st with
          sourceBufferUpdating := true
          audioChunksBuffer := rest
          appended := st.appended ++ [c] }
    else
      { st with sourceBufferUpdating := false, audioChunksBuffer := rest }

/-- Embeds `stopAudioPlayback` (useVoiceChat.ts lines 428-467): pause and
drop the current audio element, end the media source stream, clear the
streaming and playing flags, empty both chunk buffers, null the media
source and source buffer refs, and set `isPlaying` to false. -/
def stopAudioPlayback (st : AudioState) : AudioState :=
  { st with
      hasCurrentAudio := false
      hasMediaSource := false
      mediaSourceOpen := false
      hasSourceBuffer := false
      isStreamingAudio := false
      isPlayingRef := false
      audioQueue := []
      audioChunksBuffer := []
      isPlaying := false }

/-- Embeds the synchronous part of `initializeStreamingAudio`
(useVoiceChat.ts lines 196-247): guarded by the speaker setting and the
streaming flag, it creates a fresh MediaSource and audio element.  The
`sourceopen` callback is modelled separately as `onSourceOpen`. -/
def initStreamingAudio (st : AudioState) : AudioState :=
  if !st.speakerEnabled || st.isStreamingAudio then st
  else { st with hasMediaSource := true, hasCurrentAudio := true }

/-- Embeds the `sourceopen` callback inside `initializeStreamingAudio`:
adds the source buffer, marks streaming active and playing true. -/
def onSourceOpen (st : AudioState) : AudioState :=
  { st with
      mediaSourceOpen := true
      hasSourceBuffer := true
      sourceBufferUpdating := false
      isStreamingAudio := true
      isPlaying := true }

/-- Embeds `finalizeStreamingAudio` (useVoiceChat.ts lines 282-307): end
the media source stream when open and clear the streaming flag. -/
def finalizeStreamingAudio (st : AudioState) : AudioState :=
  if st.hasMediaSource && st.mediaSourceOpen then
    { st with mediaSourceOpen := false, isStreamingAudio := false }
  else
    { st with isStreamingAudio := false }

/-- Events that drive the playback pipeline between user-visible
operations: arrival of one `audio_output` chunk at the handler, or
completion of one asynchronous source-buffer append. -/
inductive AudioEvent where
  | arrive (c : Chunk)
  | updateEnd
deriving DecidableEq

/-- One step of the playback pipeline. -/
def audioStep (st : AudioState) : AudioEvent → AudioState
  | AudioEvent.arrive c => handleStreamingAudioOutput st c
  | AudioEvent.updateEnd => onUpdateEnd st

/-- Run of the playback pipeline over a trace of events. -/
def runAudio (st : AudioState) (es : List AudioEvent) : AudioState :=
  es.foldl audioStep st

/-- Chunks arriving in a trace, in arrival order. -/
def arrivals : List AudioEvent → List Chunk
  | [] => []
  | AudioEvent.arrive c :: es => c :: arrivals es
  | AudioEvent.updateEnd :: es => arrivals es

/-- Outbound-transmission state of the variant hook in
`src/unnamed/part_000` (its `sendAudioInput`, with the 50 ms throttle):
the socket readiness, the `lastAudioSentRef` timestamp in milliseconds,
and the ordered log of frames actually sent on the wire. -/
structure SendState where
  socketOpen : Bool
  lastAudioSent : Nat
  sentFrames : List String
deriving DecidableEq

/-- Embeds the throttled `sendAudioInput` of the variant hook in
`src/unnamed/part_000`: with the socket open, a call within 50 ms of the
previous successful send returns without sending and without touching the
timestamp; otherwise the frame is sent and the timestamp updated.  With
the socket not open, nothing is sent. -/
def sendAudioInput (st : SendState) (now : Nat) (b64 : String) : SendState :=
  if st.socketOpen then
    if now - st.lastAudioSent < 50 then st
    else { st with sentFrames := st.sentFrames ++ [b64], lastAudioSent := now }
  else st

/-- Connection lifecycle states held in `connectionStateRef` of the
variant hook in `src/unnamed/part_000`. -/
inductive ConnStatus where
  | connecting
  | connected
  | disconnected
deriving DecidableEq

/-- Connection-side state of the variant hook in `src/unnamed/part_000`:
`connectionStateRef`, the `isConnected` React state, whether `socketRef`
holds a socket, the pending reconnect timeout (delay in ms) held in
`reconnectTimeoutRef`, the keep-alive interval, the connection-timeout
watchdog, and the conversation log of error messages added by
`addErrorMessage`. -/
structure ConnState where
  connectionState : ConnStatus
  isConnected : Bool
  hasSocket : Bool
  reconnectScheduled : Option Nat
  keepAliveActive : Bool
  connectionTimeoutActive : Bool
  messages : List String
deriving DecidableEq

/-- Result of one synchronous `connect()` invocation: the state it leaves
behind, how many WebSocket objects it constructed, and the message of the
exception it re-throws, if any. -/
structure ConnectOutcome where
  state : ConnState
  socketsOpened : Nat
  thrown : Option String
deriving DecidableEq

/-- Embeds the synchronous body of `connect` of the variant hook in
`src/unnamed/part_000` (its lines 577-727 as concatenated): an early
return when already connecting or connected; otherwise mark connecting,
clear any pending reconnect timeout, and check the API key.  A missing
key throws; the catch block marks the state disconnected and appends a
user-visible error message before re-throwing.  With a key present a
WebSocket is constructed, stored in `socketRef`, and the ten-second
connection-timeout watchdog is started. -/
def connect (st : ConnState) (apiKey : Option String) : ConnectOutcome :=
  if st.connectionState = ConnStatus.connecting ∨
      st.connectionState = ConnStatus.connected then
    { state := st, socketsOpened := 0, thrown := none }
  else
    match apiKey with
    | none =>
      { state :=
          { st with
              connectionState := ConnStatus.disconnected
              isConnected := false
              reconnectScheduled := none
              messages := st.messages ++
                ["Failed to connect: HUME_API_KEY not found in environment variables"] }
        socketsOpened := 0
        thrown := some "HUME_API_KEY not found in environment variables" }
    | some _ =>
      { state :=
          { st with
              connectionState := ConnStatus.connecting
              reconnectScheduled := none
              hasSocket := true
              connectionTimeoutActive := true }
        socketsOpened := 1
        thrown := none }

/-- Embeds `socket.onclose` of the variant hook in `src/unnamed/part_000`:
clear the connection-timeout watchdog, mark the state disconnected, clear
the keep-alive interval, and schedule a single reconnect attempt after
3000 ms exactly when the close code is neither 1000 nor 1001. -/
def socketOnClose (st : ConnState) (code : Nat) : ConnState :=
  if code ≠ 1000 ∧ code ≠ 1001 then
    { st with
        connectionTimeoutActive := false
        connectionState := ConnStatus.disconnected
        isConnected := false
        keepAliveActive := false
        reconnectScheduled := some 3000 }
  else
    { st with
        connectionTimeoutActive := false
        connectionState := ConnStatus.disconnected
        isConnected := false
        keepAliveActive := false }

/-- Recording-side state of `startRecording` in
`src/src/hooks/useVoiceChat.ts`: the connection flag and socket ref it
guards on, the microphone setting, whether the capture stream and media
recorder have been acquired, the recording flag, and the conversation log
of error messages. -/
structure RecState where
  isConnected : Bool
  hasSocket : Bool
  microphoneEnabled : Bool
  hasAudioStream : Bool
  hasMediaRecorder : Bool
  isRecording : Bool
  messages : List String
deriving DecidableEq

/-- Embeds `startRecording` (useVoiceChat.ts lines 312-391).  Returns the
new state together with the message of the exception the call re-throws,
if any.  Not connected or no socket: throw before touching any device;
microphone disabled: likewise.  The catch block appends a user-visible
error message before re-throwing.  On the success path the capture
stream and media recorder are acquired and the recording flag is set. -/
def startRecording (st : RecState) : RecState × Option String :=
  if !st.isConnected || !st.hasSocket then
    ({ st with messages := st.messages ++
        ["Failed to start recording: Not connected to Hume EVI. Please connect first."] },
      some "Not connected to Hume EVI. Please connect first.")
  else if !st.microphoneEnabled then
    ({ st with messages := st.messages ++
        ["Failed to start recording: Microphone is disabled"] },
      some "Microphone is disabled")
  else
    ({ st with hasAudioStream := true, hasMediaRecorder := true, isRecording := true },
      none)

/-- Emotion score attached to an assistant message (`models.prosody.scores`
entries); the numeric score is carried through untouched, so it is
modelled as an integer payload. -/
structure EmotionScore where
  name : String
  score : Int
deriving DecidableEq

/-- Conversation log entry built by `addUserMessage`,
`addAssistantMessage` and `addErrorMessage` in
`src/src/hooks/useVoiceChat.ts` (ids and timestamps come from the clock
and are omitted). -/
structure VoiceMessage where
  mtype : String
  content : String
  emotions : List EmotionScore
deriving DecidableEq

/-- Whole-session state seen by the `socket.onmessage` dispatcher of
`src/src/hooks/useVoiceChat.ts`: the playback state, the conversation
log, and the connection state it never touches. -/
structure SessionState where
  audio : AudioState
  messages : List VoiceMessage
  isConnected : Bool
  hasSocket : Bool
deriving DecidableEq

/-- Embeds `addUserMessage` (useVoiceChat.ts lines 472-484). -/
def addUserMessage (st : SessionState) (content : String) : SessionState :=
  { st with messages := st.messages ++
      [{ mtype := "user", content := content, emotions := [] }] }

/-- Embeds `addAssistantMessage` (useVoiceChat.ts lines 489-511). -/
def addAssistantMessage (st : SessionState) (content : String)
    (emotions : List EmotionScore) : SessionState :=
  { st with messages := st.messages ++
      [{ mtype := "assistant", content := content, emotions := emotions }] }

/-- Embeds `addErrorMessage` (useVoiceChat.ts lines 516-528); error
entries reuse the assistant message type. -/
def addErrorMessage (st : SessionState) (content : String) : SessionState :=
  { st with messages := st.messages ++
      [{ mtype := "assistant", content := content, emotions := [] }] }

/-- Parsed inbound frame, one constructor per `message.type` tag handled
by the `socket.onmessage` switch in `src/src/hooks/useVoiceChat.ts`, with
an explicit fallback for unknown tags. -/
inductive InMsg where
  | sessionSettings
  | userMessage (content : Option String) (interim : Bool)
  | assistantMessage (content : Option String) (scores : List EmotionScore)
  | audioOutput (data : Chunk)
  | assistantEnd
  | userInterruption
  | errorMsg (msg : Option String)
  | unknown (tag : String)
deriving DecidableEq

/-- Embeds the `socket.onmessage` handler (useVoiceChat.ts lines 75-128).
The argument is `none` when `JSON.parse` threw: the surrounding catch
logs and returns with no state change.  Known tags dispatch to the
embedded handlers; an unknown tag is logged and ignored. -/
def onMessage (st : SessionState) (parsed : Option InMsg) : SessionState :=
  match parsed with
  | none => st
  | some m =>
    match m with
    | InMsg.sessionSettings => st
    | InMsg.userMessage content interim =>
      if interim then st else addUserMessage st (content.getD "Voice message")
    | InMsg.assistantMessage content scores =>
      let st1 := addAssistantMessage st (content.getD "") scores
      { st1 with audio := initStreamingAudio st1.audio }
    | InMsg.audioOutput data =>
      { st with audio := handleStreamingAudioOutput st.audio data }
    | InMsg.assistantEnd =>
      { st with audio := finalizeStreamingAudio st.audio }
    | InMsg.userInterruption =>
      { st with audio := stopAudioPlayback st.audio }
    | InMsg.errorMsg msg =>
      addErrorMessage st ("Error: " ++ msg.getD "Unknown error")
    | InMsg.unknown _ => st

/-- C1: while the socket is open, a send issued less than 50 ms after the
previous successful send transmits nothing, leaving the sent-frame log
and the last-send timestamp unchanged; two sends spaced 50 ms or more
apart both reach the wire, in order. -/
theorem sendAudioInput_throttle (st : SendState) (t1 t2 : Nat) (c1 c2 : String)
    (hopen : st.socketOpen = true) (h1 : 50 ≤ t1 - st.lastAudioSent)
    (h12 : t1 ≤ t2) :
    (t2 - t1 < 50 →
        sendAudioInput (sendAudioInput st t1 c1) t2 c2 = sendAudioInput st t1 c1 ∧
        (sendAudioInput st t1 c1).lastAudioSent = t1 ∧
        (sendAudioInput st t1 c1).sentFrames = st.sentFrames ++ [c1]) ∧
    (50 ≤ t2 - t1 →
        (sendAudioInput (sendAudioInput st t1 c1) t2 c2).sentFrames
          = st.sentFrames ++ [c1, c2] ∧
        (sendAudioInput (sendAudioInput st t1 c1) t2 c2).lastAudioSent = t2) := by
  have hA1 : ¬ (t1 - st.lastAudioSent < 50) := by omega
  have hfirst : sendAudioInput st t1 c1 =
      { st with sentFrames := st.sentFrames ++ [c1], lastAudioSent := t1 } := by
    simp [sendAudioInput, hopen, hA1]
  constructor
  · intro hlt
    refine ⟨?_, by rw [hfirst], by rw [hfirst]⟩
    rw [hfirst]
    simp [sendAudioInput, hopen, hlt]
  · intro hge
    have hA2 : ¬ (t2 - t1 < 50) := by omega
    rw [hfirst]
    simp [sendAudioInput, hopen, hA2]

/-- Witness for C1 at concrete inputs: from a fresh open socket, sends at
50 ms and 100 ms both reach the wire in order, while a send at 80 ms
after the 50 ms send would have changed nothing. -/
theorem sendAudioInput_throttle_witness :
    (sendAudioInput (sendAudioInput ⟨true, 0, []⟩ 50 "a") 100 "b").sentFrames
        = [] ++ ["a", "b"] ∧
    (sendAudioInput (sendAudioInput ⟨true, 0, []⟩ 50 "a") 100 "b").lastAudioSent = 100 ∧
    sendAudioInput (sendAudioInput ⟨true, 0, []⟩ 50 "a") 80 "b"
        = sendAudioInput ⟨true, 0, []⟩ 50 "a" := by
  refine ⟨?_, ?_, ?_⟩
  · exact ((sendAudioInput_throttle ⟨true, 0, []⟩ 50 100 "a" "b" rfl (by decide)
      (by decide)).2 (by decide)).1
  · exact ((sendAudioInput_throttle ⟨true, 0, []⟩ 50 100 "a" "b" rfl (by decide)
      (by decide)).2 (by decide)).2
  · exact ((sendAudioInput_throttle ⟨true, 0, []⟩ 50 80 "a" "b" rfl (by decide)
      (by decide)).1 (by decide)).1

/-- C3: the interruption flush leaves both audio buffers empty and both
playing flags false, for every starting state (so also when nothing was
playing or the buffers were already empty, where it is a harmless no-op),
and applying it twice equals applying it once. -/
theorem stopAudioPlayback_clears (st : AudioState) :
    (stopAudioPlayback st).audioQueue = [] ∧
    (stopAudioPlayback st).audioChunksBuffer = [] ∧
    (stopAudioPlayback st).isPlaying = false ∧
    (stopAudioPlayback st).isPlayingRef = false ∧
    stopAudioPlayback (stopAudioPlayback st) = stopAudioPlayback st :=
  ⟨rfl, rfl, rfl, rfl, rfl⟩

/-- C4: on close, a reconnect is scheduled exactly when the close code is
neither 1000 nor 1001, and then a single attempt is scheduled with the
fixed 3000 ms delay. -/
theorem reconnect_only_on_abnormal_close (st : ConnState) (code : Nat)
    (h : st.reconnectScheduled = none) :
    (socketOnClose st code).reconnectScheduled
      = if code = 1000 ∨ code = 1001 then none else some 3000 := by
  unfold socketOnClose
  split_ifs with h1 h2 h3
  · exact absurd h2 (by tauto)
  · rfl
  · exact h
  · exact absurd h1 (by tauto)

/-- Witness for C4: with no reconnect pending, an abnormal close (code
1006) schedules one attempt after 3000 ms and a normal close (code 1000)
schedules none. -/
theorem reconnect_only_on_abnormal_close_witness :
    (socketOnClose ⟨ConnStatus.connected, true, true, none, true, false, []⟩
        1006).reconnectScheduled = some 3000 ∧
    (socketOnClose ⟨ConnStatus.connected, true, true, none, true, false, []⟩
        1000).reconnectScheduled = none := by
  constructor
  · have h := reconnect_only_on_abnormal_close
      ⟨ConnStatus.connected, true, true, none, true, false, []⟩ 1006 rfl
    simpa using h
  · have h := reconnect_only_on_abnormal_close
      ⟨ConnStatus.connected, true, true, none, true, false, []⟩ 1000 rfl
    simpa using h

/-- C5: calling connect while the connection state is already connecting
or connected returns early: the state is unchanged, no WebSocket is
constructed, and nothing is thrown. -/
theorem connect_idempotent (st : ConnState) (apiKey : Option String)
    (h : st.connectionState = ConnStatus.connecting ∨
        st.connectionState = ConnStatus.connected) :
    connect st apiKey = { state := st, socketsOpened := 0, thrown := none } := by
  unfold connect
  rw [if_pos h]

/-- Witness for C5: a second connect on an already-connected session is a
no-op. -/
theorem connect_idempotent_witness :
    connect ⟨ConnStatus.connected, true, true, none, true, false, []⟩ (some "key")
      = { state := ⟨ConnStatus.connected, true, true, none, true, false, []⟩,
          socketsOpened := 0, thrown := none } :=
  connect_idempotent ⟨ConnStatus.connected, true, true, none, true, false, []⟩
    (some "key") (Or.inr rfl)

/-- C7: with the session disconnected and the API key absent, connect
throws the configuration error before constructing any WebSocket, leaves
the state disconnected, and schedules no reconnect for it. -/
theorem connect_missing_key (st : ConnState)
    (h : st.connectionState = ConnStatus.disconnected) :
    (connect st none).thrown
        = some "HUME_API_KEY not found in environment variables" ∧
    (connect st none).socketsOpened = 0 ∧
    (connect st none).state.reconnectScheduled = none ∧
    (connect st none).state.connectionState = ConnStatus.disconnected ∧
    (connect st none).state.hasSocket = st.hasSocket := by
  have hg : ¬ (st.connectionState = ConnStatus.connecting ∨
      st.connectionState = ConnStatus.connected) := by
    rw [h]; rintro (hc | hc) <;> exact ConnStatus.noConfusion hc
  unfold connect
  rw [if_neg hg]
  exact ⟨rfl, rfl, rfl, rfl, rfl⟩

/-- Witness for C7 at a concrete disconnected session. -/
theorem connect_missing_key_witness :
    (connect ⟨ConnStatus.disconnected, false, false, none, false, false, []⟩
        none).thrown = some "HUME_API_KEY not found in environment variables" ∧
    (connect ⟨ConnStatus.disconnected, false, false, none, false, false, []⟩
        none).socketsOpened = 0 ∧
    (connect ⟨ConnStatus.disconnected, false, false, none, false, false, []⟩
        none).state.reconnectScheduled = none ∧
    (connect ⟨ConnStatus.disconnected, false, false, none, false, false, []⟩
        none).state.connectionState = ConnStatus.disconnected ∧
    (connect ⟨ConnStatus.disconnected, false, false, none, false, false, []⟩
        none).state.hasSocket
      = (⟨ConnStatus.disconnected, false, false, none, false, false, []⟩
          : ConnState).hasSocket :=
  connect_missing_key
    ⟨ConnStatus.disconnected, false, false, none, false, false, []⟩ rfl

/-- C8: startRecording throws the not-connected error whenever the
session is not connected or the socket ref is empty, and the
microphone-disabled error when connected but the microphone setting is
off; in both cases it acquires no capture stream, creates no recorder,
and leaves the recording flag untouched. -/
theorem startRecording_guards (st : RecState) :
    ((st.isConnected = false ∨ st.hasSocket = false) →
        (startRecording st).2
            = some "Not connected to Hume EVI. Please connect first." ∧
        (startRecording st).1.hasAudioStream = st.hasAudioStream ∧
        (startRecording st).1.hasMediaRecorder = st.hasMediaRecorder ∧
        (startRecording st).1.isRecording = st.isRecording) ∧
    (st.isConnected = true → st.hasSocket = true → st.microphoneEnabled = false →
        (startRecording st).2 = some "Microphone is disabled" ∧
        (startRecording st).1.hasAudioStream = st.hasAudioStream ∧
        (startRecording st).1.hasMediaRecorder = st.hasMediaRecorder ∧
        (startRecording st).1.isRecording = st.isRecording) := by
  constructor
  · rintro (h | h) <;> simp [startRecording, h]
  · intro h1 h2 h3
    simp [startRecording, h1, h2, h3]

/-- Witness for C8: a disconnected session gets the not-connected error,
and a connected session with the microphone disabled gets the
microphone error; neither acquires a device or sets the flag. -/
theorem startRecording_guards_witness :
    ((startRecording ⟨false, false, true, false, false, false, []⟩).2
        = some "Not connected to Hume EVI. Please connect first." ∧
      (startRecording ⟨false, false, true, false, false, false, []⟩).1.hasAudioStream
        = false ∧
      (startRecording ⟨false, false, true, false, false, false, []⟩).1.hasMediaRecorder
        = false ∧
      (startRecording ⟨false, false, true, false, false, false, []⟩).1.isRecording
        = false) ∧
    ((startRecording ⟨true, true, false, false, false, false, []⟩).2
        = some "Microphone is disabled" ∧
      (startRecording ⟨true, true, false, false, false, false, []⟩).1.hasAudioStream
        = false ∧
      (startRecording ⟨true, true, false, false, false, false, []⟩).1.hasMediaRecorder
        = false ∧
      (startRecording ⟨true, true, false, false, false, false, []⟩).1.isRecording
        = false) :=
  ⟨(startRecording_guards ⟨false, false, true, false, false, false, []⟩).1
      (Or.inl rfl),
    (startRecording_guards ⟨true, true, false, false, false, false, []⟩).2
      rfl rfl rfl⟩

/-- Helper: the streaming-audio handler is the identity whenever the
streaming flag is off (the guard at useVoiceChat.ts lines 255-256). -/
theorem hso_not_streaming (st : AudioState) (c : Chunk)
    (h : st.isStreamingAudio = false) :
    handleStreamingAudioOutput st c = st := by
  simp [handleStreamingAudioOutput, h]

/-- Helper: folding the handler over any chunk list from a state with the
streaming flag off changes nothing. -/
theorem foldl_hso_not_streaming (cs : List Chunk) :
    ∀ st : AudioState, st.isStreamingAudio = false →
      List.foldl handleStreamingAudioOutput st cs = st := by
  induction cs with
  | nil => intro st _; rfl
  | cons c cs ih =>
    intro st h
    rw [List.foldl_cons, hso_not_streaming st c h]
    exact ih st h

/-- C6: every chunk arriving at the audio-output handler after a flush
and before the next utterance is initialized is discarded: the state
stays exactly the flushed state, so nothing is appended or enqueued. -/
theorem flush_discards_late_chunks (st : AudioState) (cs : List Chunk) :
    List.foldl handleStreamingAudioOutput (stopAudioPlayback st) cs
      = stopAudioPlayback st :=
  foldl_hso_not_streaming cs (stopAudioPlayback st) rfl

/-- C9: the inbound-message dispatcher is a total function that never
changes the connection state, treats a frame that failed to parse as a
logged no-op, and leaves the whole session state unchanged on an unknown
type tag. -/
theorem onmessage_safe (st : SessionState) (parsed : Option InMsg) :
    (onMessage st parsed).isConnected = st.isConnected ∧
    (onMessage st parsed).hasSocket = st.hasSocket ∧
    onMessage st none = st ∧
    (∀ tag : String, onMessage st (some (InMsg.unknown tag)) = st) := by
  refine ⟨?_, ?_, rfl, fun _ => rfl⟩ <;>
    · cases parsed with
      | none => rfl
      | some m =>
        cases m with
        | userMessage content interim => cases interim <;> rfl
        | sessionSettings => rfl
        | assistantMessage content scores => rfl
        | audioOutput data => rfl
        | assistantEnd => rfl
        | userInterruption => rfl
        | errorMsg msg => rfl
        | unknown tag => rfl

/-- Helper: one pipeline step changes neither the speaker setting, nor
the streaming flag, nor the presence of the source buffer. -/
theorem audioStep_flags (st : AudioState) (e : AudioEvent) :
    (audioStep st e).speakerEnabled = st.speakerEnabled ∧
    (audioStep st e).isStreamingAudio = st.isStreamingAudio ∧
    (audioStep st e).hasSourceBuffer = st.hasSourceBuffer := by
  cases e with
  | arrive c =>
    simp only [audioStep]
    unfold handleStreamingAudioOutput
    split_ifs <;> exact ⟨rfl, rfl, rfl⟩
  | updateEnd =>
    simp only [audioStep]
    unfold onUpdateEnd
    rcases hq : st.audioChunksBuffer with _ | ⟨c, rest⟩
    · exact ⟨rfl, rfl, rfl⟩
    · split_ifs <;> exact ⟨rfl, rfl, rfl⟩

/-- Helper: while the handler is live (speaker on, streaming on, source
buffer present), an idle source buffer implies an empty overflow queue,
and one pipeline step preserves this. -/
theorem audioStep_inv (st : AudioState) (e : AudioEvent)
    (hsp : st.speakerEnabled = true) (hstr : st.isStreamingAudio = true)
    (hsb : st.hasSourceBuffer = true)
    (hinv : st.sourceBufferUpdating = false → st.audioChunksBuffer = []) :
    (audioStep st e).sourceBufferUpdating = false →
      (audioStep st e).audioChunksBuffer = [] := by
  cases e with
  | arrive c =>
    simp only [audioStep]
    unfold handleStreamingAudioOutput
    rcases hupd : st.sourceBufferUpdating with _ | _
    · simp [hsp, hstr, hsb, hupd]
    · simp [hsp, hstr, hsb, hupd]
  | updateEnd =>
    simp only [audioStep]
    unfold onUpdateEnd
    rcases hq : st.audioChunksBuffer with _ | ⟨c, rest⟩
    · intro _; rfl
    · simp [hsb]

/-- Helper: one pipeline step extends the device-plus-queue chunk list by
exactly the chunks the event delivered, in order. -/
theorem audioStep_order (st : AudioState) (e : AudioEvent)
    (hsp : st.speakerEnabled = true) (hstr : st.isStreamingAudio = true)
    (hsb : st.hasSourceBuffer = true)
    (hinv : st.sourceBufferUpdating = false → st.audioChunksBuffer = []) :
    (audioStep st e).appended ++ (audioStep st e).audioChunksBuffer
      = st.appended ++ st.audioChunksBuffer ++ arrivals [e] := by
  cases e with
  | arrive c =>
    simp only [audioStep, arrivals]
    unfold handleStreamingAudioOutput
    rcases hupd : st.sourceBufferUpdating with _ | _
    · have hq := hinv hupd
      simp [hsp, hstr, hsb, hupd, hq]
    · simp [hsp, hstr, hsb, hupd]
  | updateEnd =>
    simp only [audioStep, arrivals]
    unfold onUpdateEnd
    rcases hq : st.audioChunksBuffer with _ | ⟨c, rest⟩
    · simp
    · simp [hsb]

/-- Helper: over any event trace from a live handler state whose idle
buffer has an empty queue, the device-plus-queue chunk list grows by
exactly the arrived chunks, in arrival order. -/
theorem runAudio_order (es : List AudioEvent) :
    ∀ st : AudioState, st.speakerEnabled = true → st.isStreamingAudio = true →
      st.hasSourceBuffer = true →
      (st.sourceBufferUpdating = false → st.audioChunksBuffer = []) →
      (runAudio st es).appended ++ (runAudio st es).audioChunksBuffer
        = st.appended ++ st.audioChunksBuffer ++ arrivals es := by
  induction es with
  | nil =>
    intro st _ _ _ _
    simp [runAudio, arrivals]
  | cons e es ih =>
    intro st hsp hstr hsb hinv
    have hflags := audioStep_flags st e
    have hrun : runAudio st (e :: es) = runAudio (audioStep st e) es := rfl
    have hrec := ih (audioStep st e) (hflags.1.trans hsp) (hflags.2.1.trans hstr)
      (hflags.2.2.trans hsb) (audioStep_inv st e hsp hstr hsb hinv)
    have hstep := audioStep_order st e hsp hstr hsb hinv
    have hc : arrivals (e :: es) = arrivals [e] ++ arrivals es := by
      cases e <;> simp [arrivals]
    rw [hrun, hrec, hstep, hc]
    simp [List.append_assoc]

/-- C2: chunks of one utterance that reach the audio-output handler in
order are received by the playback device in that identical order,
whether each chunk was appended directly or queued while the source
buffer was busy; once the overflow queue has drained, the device holds
exactly the arrival sequence. -/
theorem ordered_playback (st : AudioState) (es : List AudioEvent)
    (hsp : st.speakerEnabled = true) (hstr : st.isStreamingAudio = true)
    (hsb : st.hasSourceBuffer = true)
    (happ : st.appended = []) (hq : st.audioChunksBuffer = []) :
    (runAudio st es).appended ++ (runAudio st es).audioChunksBuffer
        = arrivals es ∧
    ((runAudio st es).audioChunksBuffer = [] →
        (runAudio st es).appended = arrivals es) := by
  have h := runAudio_order es st hsp hstr hsb (fun _ => hq)
  rw [happ, hq] at h
  simp only [List.nil_append] at h
  exact ⟨h, fun hq2 => by rw [hq2, List.append_nil] at h; exact h⟩

/-- Witness for C2: from a fresh utterance state, three chunks arrive
(the first appended directly, the next two queued while the buffer is
busy) and two append completions drain the queue; the device ends up
with exactly the three chunks in arrival order. -/
theorem ordered_playback_witness :
    (runAudio
        { speakerEnabled := true, hasCurrentAudio := true,
          hasMediaSource := true, mediaSourceOpen := true,
          hasSourceBuffer := true, sourceBufferUpdating := false,
          appended := [], audioChunksBuffer := [], audioQueue := [],
          isStreamingAudio := true, isPlayingRef := true, isPlaying := true }
        [AudioEvent.arrive [1], AudioEvent.arrive [2], AudioEvent.arrive [3],
          AudioEvent.updateEnd, AudioEvent.updateEnd]).appended ++
      (runAudio
        { speakerEnabled := true, hasCurrentAudio := true,
          hasMediaSource := true, mediaSourceOpen := true,
          hasSourceBuffer := true, sourceBufferUpdating := false,
          appended := [], audioChunksBuffer := [], audioQueue := [],
          isStreamingAudio := true, isPlayingRef := true, isPlaying := true }
        [AudioEvent.arrive [1], AudioEvent.arrive [2], AudioEvent.arrive [3],
          AudioEvent.updateEnd, AudioEvent.updateEnd]).audioChunksBuffer
      = arrivals [AudioEvent.arrive [1], AudioEvent.arrive [2],
          AudioEvent.arrive [3], AudioEvent.updateEnd, AudioEvent.updateEnd] ∧
    ((runAudio
        { speakerEnabled := true, hasCurrentAudio := true,
          hasMediaSource := true, mediaSourceOpen := true,
          hasSourceBuffer := true, sourceBufferUpdating := false,
          appended := [], audioChunksBuffer := [], audioQueue := [],
          isStreamingAudio := true, isPlayingRef := true, isPlaying := true }
        [AudioEvent.arrive [1], AudioEvent.arrive [2], AudioEvent.arrive [3],
          AudioEvent.updateEnd, AudioEvent.updateEnd]).audioChunksBuffer = [] →
      (runAudio
        { speakerEnabled := true, hasCurrentAudio := true,
          hasMediaSource := true, mediaSourceOpen := true,
          hasSourceBuffer := true, sourceBufferUpdating := false,
          appended := [], audioChunksBuffer := [], audioQueue := [],
          isStreamingAudio := true, isPlayingRef := true, isPlaying := true }
        [AudioEvent.arrive [1], AudioEvent.arrive [2], AudioEvent.arrive [3],
          AudioEvent.updateEnd, AudioEvent.updateEnd]).appended
        = arrivals [AudioEvent.arrive [1], AudioEvent.arrive [2],
            AudioEvent.arrive [3], AudioEvent.updateEnd, AudioEvent.updateEnd]) :=
  ordered_playback
    { speakerEnabled := true, hasCurrentAudio := true,
      hasMediaSource := true, mediaSourceOpen := true,
      hasSourceBuffer := true, sourceBufferUpdating := false,
      appended := [], audioChunksBuffer := [], audioQueue := [],
      isStreamingAudio := true, isPlayingRef := true, isPlaying := true }
    [AudioEvent.arrive [1], AudioEvent.arrive [2], AudioEvent.arrive [3],
      AudioEvent.updateEnd, AudioEvent.updateEnd]
    rfl rfl rfl rfl rfl
